import Mathlib

/-!
Shallow embedding of the URL-shortener backend (`urlService.js`, `server.js`,
`database.js`).  The persisted state is the `urls` table, modelled as a list of
rows in insertion order; the schema (database.js) has a primary key on
`short_code` only.  Timestamps are integers (milliseconds since the epoch, as
returned by `Date.getTime()`).
-/

namespace ShortUrl

/-- Code points treated as whitespace by JavaScript `String.prototype.trim`
(WhiteSpace plus LineTerminator). -/
def jsWhitespaceCodes : List Nat :=
  [0x9, 0xA, 0xB, 0xC, 0xD, 0x20, 0xA0, 0x1680, 0x2000, 0x2001, 0x2002, 0x2003,
   0x2004, 0x2005, 0x2006, 0x2007, 0x2008, 0x2009, 0x200A, 0x2028, 0x2029,
   0x202F, 0x205F, 0x3000, 0xFEFF]

def isJsWhitespace (c : Char) : Bool :=
  jsWhitespaceCodes.contains c.toNat

/-- Model of `originalUrl.trim()`: drop whitespace from both ends. -/
def jsTrim (s : String) : String :=
  String.mk (((s.data.dropWhile isJsWhitespace).reverse.dropWhile
    isJsWhitespace).reverse)

/-- One row of the `urls` table (database.js): `short_code` is the primary key,
`click_count` defaults to 0, `expires_at` is nullable. -/
structure UrlRecord where
  short_code : String
  original_url : String
  click_count : Nat
  created_at : Int
  expires_at : Option Int
deriving Repr, DecidableEq

/-- Error outcomes surfaced by the data-access layer: the tagged
`not_found` and `expired` throws of `getUrlByShortCode`/`getUrlStats`, and a
database error (e.g. a primary-key violation on insert). -/
inductive SvcError where
  | notFound
  | expired (expires_at : Int)
  | storeError
deriving Repr, DecidableEq

/-- Model of `SELECT TOP 1 ... FROM urls WHERE original_url = @original_url`:
first row (in insertion order) whose `original_url` matches exactly. -/
def findByUrl : List UrlRecord → String → Option UrlRecord
  | [], _ => none
  | r :: rest, url =>
      if r.original_url == url then some r else findByUrl rest url

/-- Model of `SELECT * FROM urls WHERE short_code = @short_code` (first row). -/
def findByCode : List UrlRecord → String → Option UrlRecord
  | [], _ => none
  | r :: rest, code =>
      if r.short_code == code then some r else findByCode rest code

/-- Whether some row already uses a short code (decides whether an INSERT
violates the `short_code` primary key). -/
def usedCode : List UrlRecord → String → Bool
  | [], _ => false
  | r :: rest, code => r.short_code == code || usedCode rest code

/-- Number of rows whose `original_url` equals `url`. -/
def countUrl : List UrlRecord → String → Nat
  | [], _ => 0
  | r :: rest, url =>
      (if r.original_url == url then 1 else 0) + countUrl rest url

/-- Model of the INSERT in `createShortUrl`: rejected with a store error when
the `short_code` primary key is violated, otherwise the row is appended.  The
schema puts no uniqueness constraint on `original_url`. -/
def insertUrlRow (db : List UrlRecord) (r : UrlRecord) :
    Except SvcError (List UrlRecord) :=
  if usedCode db r.short_code then .error .storeError else .ok (db ++ [r])

/-- JavaScript value passed as the `expiresAt` argument (server.js forwards
`expires_at || null` from the request body; urlService.js line 45 evaluates
`expiresAt ? new Date(expiresAt) : null`).  A non-empty timestamp string is
represented by the instant it denotes. -/
inductive JsArg where
  | null
  | emptyStr
  | timeStr (t : Int)
  | num (n : Int)
  | boolean (b : Bool)
deriving Repr, DecidableEq

/-- JavaScript truthiness of a `JsArg`. -/
def JsArg.truthy : JsArg → Bool
  | .null => false
  | .emptyStr => false
  | .timeStr _ => true
  | .num n => n != 0
  | .boolean b => b

/-- The instant `new Date(v).getTime()` yields for a truthy `v`. -/
def JsArg.dateValue : JsArg → Int
  | .null => 0
  | .emptyStr => 0
  | .timeStr t => t
  | .num n => n
  | .boolean b => if b then 1 else 0

/-- Model of `expiresAt ? new Date(expiresAt) : null` (urlService.js line
45): a falsy argument is stored as NULL, a truthy one as its instant. -/
def storedExpiry (e : JsArg) : Option Int :=
  if e.truthy then some e.dateValue else none

/-- Model of `createShortUrl(originalUrl, expiresAt)` (urlService.js lines
16-54).  `gen` is the code produced by the single `shortid.generate()` call
and `now` the value of `new Date()` at the insert.  The function trims the
URL, returns the existing short code when a row for the trimmed URL exists,
and otherwise inserts a fresh row (whose `click_count` is 0 via the schema
default) and returns the generated code; an insert rejection is rethrown. -/
def createShortUrl (gen : String) (now : Int) (originalUrl : String)
    (expiresAt : JsArg) (db : List UrlRecord) :
    Except SvcError (String × List UrlRecord) :=
  let trimmedUrl := jsTrim originalUrl
  match findByUrl db trimmedUrl with
  | some row => .ok (row.short_code, db)
  | none =>
      match insertUrlRow db
        ⟨gen, trimmedUrl, 0, now, storedExpiry expiresAt⟩ with
      | .error e => .error e
      | .ok db2 => .ok (gen, db2)

/-- Model of `getUrlByShortCode(shortCode)` (urlService.js lines 61-97):
missing row throws `not_found`; a row with a non-null `expires_at` throws
`expired` (carrying the stored instant) exactly when `currentTime >
expiryTime`; otherwise the row is returned. -/
def getUrlByShortCode (now : Int) (shortCode : String)
    (db : List UrlRecord) : Except SvcError UrlRecord :=
  match findByCode db shortCode with
  | none => .error .notFound
  | some row =>
      match row.expires_at with
      | some expiryTime =>
          if now > expiryTime then .error (.expired expiryTime) else .ok row
      | none => .ok row

/-- Model of `incrementClickCount(shortCode)` (urlService.js lines 104-114):
`UPDATE urls SET click_count = click_count + 1 WHERE short_code = ...`. -/
def incrementClickCount (code : String) : List UrlRecord → List UrlRecord
  | [] => []
  | r :: rest =>
      (if r.short_code == code then
        { r with click_count := r.click_count + 1 } else r) ::
      incrementClickCount code rest

/-- Model of `getUrlStats(shortCode)` (urlService.js lines 121-137): the raw
row regardless of expiration, or a not-found error. -/
def getUrlStats (shortCode : String) (db : List UrlRecord) :
    Except SvcError UrlRecord :=
  match findByCode db shortCode with
  | none => .error .notFound
  | some row => .ok row

/-- Model of the `GET /:shortCode` handler (server.js lines 100-106): look up
the row, then increment the click counter and redirect to `original_url`; a
thrown error leaves the table untouched.  Returns the handler outcome paired
with the resulting table. -/
def resolveShortCode (now : Int) (shortCode : String)
    (db : List UrlRecord) : Except SvcError String × List UrlRecord :=
  match getUrlByShortCode now shortCode db with
  | .error e => (.error e, db)
  | .ok row => (.ok row.original_url, incrementClickCount shortCode db)

/-- First half of `createShortUrl`, up to the `await` of the SELECT: the
existence check, yielding the existing short code when found. -/
def createCheck (db : List UrlRecord) (originalUrl : String) :
    Option String :=
  match findByUrl db (jsTrim originalUrl) with
  | some row => some row.short_code
  | none => none

/-- Second half of `createShortUrl`, resumed after the SELECT: acts on the
check outcome observed earlier, inserting when the check saw nothing. -/
def createAfterCheck (gen : String) (now : Int) (originalUrl : String)
    (expiresAt : JsArg) (check : Option String) (db : List UrlRecord) :
    Except SvcError String × List UrlRecord :=
  match check with
  | some c => (.ok c, db)
  | none =>
      match insertUrlRow db
        ⟨gen, jsTrim originalUrl, 0, now, storedExpiry expiresAt⟩ with
      | .error e => (.error e, db)
      | .ok db2 => (.ok gen, db2)

/-- Interleaving of two concurrent `createShortUrl` calls in which both SELECT
existence checks run before either INSERT (check A, check B, insert A,
insert B).  Returns both outcomes and the final table. -/
def raceCreate (gen1 gen2 : String) (now1 now2 : Int)
    (url1 url2 : String) (exp1 exp2 : JsArg) (db : List UrlRecord) :
    Except SvcError String × Except SvcError String × List UrlRecord :=
  let chk1 := createCheck db url1
  let chk2 := createCheck db url2
  let step1 := createAfterCheck gen1 now1 url1 exp1 chk1 db
  let step2 := createAfterCheck gen2 now2 url2 exp2 chk2 step1.2
  (step1.1, step2.1, step2.2)

/-! Helper lemmas about the store primitives. -/

theorem findByUrl_append_of_none {l1 : List UrlRecord} {url : String}
    (h : findByUrl l1 url = none) (l2 : List UrlRecord) :
    findByUrl (l1 ++ l2) url = findByUrl l2 url := by
  induction l1 with
  | nil => rfl
  | cons r rest ih =>
      cases hr : r.original_url == url with
      | true => simp [findByUrl, hr] at h
      | false =>
          simp only [findByUrl, hr] at h
          simpa [findByUrl, hr] using ih h

theorem findByCode_append_of_none {l1 : List UrlRecord} {code : String}
    (h : findByCode l1 code = none) (l2 : List UrlRecord) :
    findByCode (l1 ++ l2) code = findByCode l2 code := by
  induction l1 with
  | nil => rfl
  | cons r rest ih =>
      cases hr : r.short_code == code with
      | true => simp [findByCode, hr] at h
      | false =>
          simp only [findByCode, hr] at h
          simpa [findByCode, hr] using ih h

theorem findByCode_eq_none_of_usedCode_eq_false {db : List UrlRecord}
    {code : String} (h : usedCode db code = false) :
    findByCode db code = none := by
  induction db with
  | nil => rfl
  | cons r rest ih =>
      simp only [usedCode, Bool.or_eq_false_iff] at h
      simp [findByCode, h.1, ih h.2]

theorem usedCode_append (l1 l2 : List UrlRecord) (code : String) :
    usedCode (l1 ++ l2) code = (usedCode l1 code || usedCode l2 code) := by
  induction l1 with
  | nil => simp [usedCode]
  | cons r rest ih => simp [usedCode, ih, Bool.or_assoc]

theorem countUrl_append (l1 l2 : List UrlRecord) (url : String) :
    countUrl (l1 ++ l2) url = countUrl l1 url + countUrl l2 url := by
  induction l1 with
  | nil => simp [countUrl]
  | cons r rest ih =>
      simp only [List.cons_append, countUrl, List.append_eq, ih]
      omega

theorem countUrl_eq_zero_of_findByUrl_eq_none {db : List UrlRecord}
    {url : String} (h : findByUrl db url = none) : countUrl db url = 0 := by
  induction db with
  | nil => rfl
  | cons r rest ih =>
      cases hr : r.original_url == url with
      | true => simp [findByUrl, hr] at h
      | false =>
          simp only [findByUrl, hr] at h
          simp [countUrl, hr, ih h]

theorem countUrl_pos_of_findByUrl_eq_some {db : List UrlRecord}
    {url : String} {r : UrlRecord} (h : findByUrl db url = some r) :
    0 < countUrl db url := by
  induction db with
  | nil => simp [findByUrl] at h
  | cons a rest ih =>
      cases ha : a.original_url == url with
      | true => simp [countUrl, ha]
      | false =>
          simp only [findByUrl, ha] at h
          simp only [countUrl, ha]
          have := ih h
          omega

theorem findByCode_incrementClickCount (code : String) (db : List UrlRecord) :
    findByCode (incrementClickCount code db) code =
      (findByCode db code).map
        (fun r => { r with click_count := r.click_count + 1 }) := by
  induction db with
  | nil => rfl
  | cons r rest ih =>
      cases hr : r.short_code == code with
      | true => simp [incrementClickCount, findByCode, hr]
      | false => simp [incrementClickCount, findByCode, hr, ih]

/-! Concrete tables used by witnesses and counterexamples. -/

/-- A table holding one record with code `c1` and expiration instant 5. -/
def dbT : List UrlRecord := [⟨"c1", "https://example.com", 0, 0, some 5⟩]

/-- A table holding one record whose short code is `abc`. -/
def dbA : List UrlRecord := [⟨"abc", "https://a.example", 0, 0, none⟩]

/-- C1: creation is idempotent by URL up to surrounding whitespace — two
createShortUrl calls whose arguments trim to the same URL both return the same
short code, and afterwards exactly one record carries the trimmed URL.  The
hypotheses state the dedup invariant (at most one pre-existing record for the
URL) and that the generated code is collision-free. -/
theorem create_idempotent_by_url (db : List UrlRecord)
    (u a1 a2 gen1 gen2 : String) (now1 now2 : Int) (exp1 exp2 : JsArg)
    (h1 : jsTrim a1 = jsTrim u) (h2 : jsTrim a2 = jsTrim u)
    (hdedup : countUrl db (jsTrim u) ≤ 1)
    (hg1 : usedCode db gen1 = false) :
    ∃ c db1 db2,
      createShortUrl gen1 now1 a1 exp1 db = .ok (c, db1) ∧
      createShortUrl gen2 now2 a2 exp2 db1 = .ok (c, db2) ∧
      countUrl db2 (jsTrim u) = 1 := by
  cases hfind : findByUrl db (jsTrim u) with
  | some r =>
      refine ⟨r.short_code, db, db, ?_, ?_, ?_⟩
      · simp [createShortUrl, h1, hfind]
      · simp [createShortUrl, h2, hfind]
      · have := countUrl_pos_of_findByUrl_eq_some hfind
        omega
  | none =>
      refine ⟨gen1, db ++ [⟨gen1, jsTrim u, 0, now1, storedExpiry exp1⟩],
        db ++ [⟨gen1, jsTrim u, 0, now1, storedExpiry exp1⟩], ?_, ?_, ?_⟩
      · rw [createShortUrl, h1]
        simp [hfind, insertUrlRow, hg1]
      · have hfind2 : findByUrl
            (db ++ [⟨gen1, jsTrim u, 0, now1, storedExpiry exp1⟩])
            (jsTrim a2) =
            some ⟨gen1, jsTrim u, 0, now1, storedExpiry exp1⟩ := by
          rw [h2, findByUrl_append_of_none hfind]
          simp [findByUrl]
        simp [createShortUrl, hfind2]
      · rw [countUrl_append, countUrl_eq_zero_of_findByUrl_eq_none hfind]
        simp [countUrl]

/-- C1 witness: two creations of `https://example.com`, the second padded with
whitespace, starting from the empty table. -/
theorem create_idempotent_by_url_witness :
    ∃ c db1 db2,
      createShortUrl "X1" 10 "https://example.com" JsArg.null [] =
        .ok (c, db1) ∧
      createShortUrl "X2" 20 "  https://example.com  " JsArg.null db1 =
        .ok (c, db2) ∧
      countUrl db2 (jsTrim "https://example.com") = 1 :=
  create_idempotent_by_url [] "https://example.com" "https://example.com"
    "  https://example.com  " "X1" "X2" 10 20 JsArg.null JsArg.null
    rfl (by decide) (by decide) rfl

/-- C2 counterexample: the record in `dbT` expires at instant 5, yet resolving
at instant 5 (an instant `≥ T`) succeeds and increments the click counter,
because the code only treats `currentTime > expiryTime` as expired. -/
theorem resolve_at_expiry_instant_succeeds_cex :
    resolveShortCode 5 "c1" dbT =
      (.ok "https://example.com",
       [⟨"c1", "https://example.com", 1, 0, some 5⟩]) := rfl

/-- C2 (amended): for a record with `expiresAt = T`, resolving at any instant
`≤ T` succeeds and increments the click counter, and resolving at any instant
strictly greater than `T` fails with Expired and leaves the table unchanged. -/
theorem expiration_boundary_amended (db : List UrlRecord) (code : String)
    (row : UrlRecord) (T now : Int)
    (hrow : findByCode db code = some row) (hexp : row.expires_at = some T) :
    (now ≤ T →
      resolveShortCode now code db =
        (.ok row.original_url, incrementClickCount code db) ∧
      findByCode (incrementClickCount code db) code =
        some { row with click_count := row.click_count + 1 }) ∧
    (T < now → resolveShortCode now code db = (.error (.expired T), db)) := by
  constructor
  · intro hle
    have hngt : ¬ (T < now) := not_lt.mpr hle
    refine ⟨?_, ?_⟩
    · simp [resolveShortCode, getUrlByShortCode, hrow, hexp, hngt]
    · rw [findByCode_incrementClickCount, hrow]
      rfl
  · intro hlt
    simp [resolveShortCode, getUrlByShortCode, hrow, hexp, hlt]

/-- C2 witness: in `dbT` (expiry instant 5), resolving at instant 7 fails with
Expired carrying 5 and leaves the table unchanged. -/
theorem expiration_boundary_amended_witness :
    resolveShortCode 7 "c1" dbT = (.error (.expired 5), dbT) :=
  (expiration_boundary_amended dbT "c1"
    ⟨"c1", "https://example.com", 0, 0, some 5⟩ 5 7 rfl rfl).2 (by decide)

/-- C3: resolving an existing code whose expiration instant lies strictly in
the past fails with Expired carrying the stored instant, and the table is left
entirely unchanged — in particular no click counter is incremented. -/
theorem expired_resolution_atomic (db : List UrlRecord) (code : String)
    (row : UrlRecord) (T now : Int)
    (hrow : findByCode db code = some row) (hexp : row.expires_at = some T)
    (hpast : T < now) :
    resolveShortCode now code db = (.error (.expired T), db) := by
  simp [resolveShortCode, getUrlByShortCode, hrow, hexp, hpast]

/-- C3 witness: resolving `c1` of `dbT` at instant 9 (past the expiry 5). -/
theorem expired_resolution_atomic_witness :
    resolveShortCode 9 "c1" dbT = (.error (.expired 5), dbT) :=
  expired_resolution_atomic dbT "c1"
    ⟨"c1", "https://example.com", 0, 0, some 5⟩ 5 9 rfl rfl (by decide)

/-- C4: creating a fresh, non-expiring record for `u` returns the generated
code; resolving that code immediately yields the trimmed `u`, and the stored
record's click counter becomes 1 after this first resolution. -/
theorem create_then_resolve_roundtrip (db : List UrlRecord) (u gen : String)
    (now1 now2 : Int)
    (hnew : findByUrl db (jsTrim u) = none)
    (hg : usedCode db gen = false) :
    ∃ db1,
      createShortUrl gen now1 u JsArg.null db = .ok (gen, db1) ∧
      (resolveShortCode now2 gen db1).1 = .ok (jsTrim u) ∧
      findByCode (resolveShortCode now2 gen db1).2 gen =
        some ⟨gen, jsTrim u, 1, now1, none⟩ := by
  refine ⟨db ++ [⟨gen, jsTrim u, 0, now1, none⟩], ?_, ?_, ?_⟩
  · simp [createShortUrl, hnew, insertUrlRow, hg, storedExpiry, JsArg.truthy]
  all_goals
    have hrow : findByCode (db ++ [⟨gen, jsTrim u, 0, now1, none⟩]) gen =
        some ⟨gen, jsTrim u, 0, now1, none⟩ := by
      rw [findByCode_append_of_none (findByCode_eq_none_of_usedCode_eq_false hg)]
      simp [findByCode]
    have hres : resolveShortCode now2 gen
        (db ++ [⟨gen, jsTrim u, 0, now1, none⟩]) =
        (.ok (jsTrim u),
         incrementClickCount gen (db ++ [⟨gen, jsTrim u, 0, now1, none⟩])) := by
      simp [resolveShortCode, getUrlByShortCode, hrow]
  · rw [hres]
  · rw [hres, findByCode_incrementClickCount, hrow]
    rfl

/-- C4 witness: fresh creation and first resolution of `https://example.com`
starting from the empty table. -/
theorem create_then_resolve_roundtrip_witness :
    ∃ db1,
      createShortUrl "X" 0 "https://example.com" JsArg.null [] =
        .ok ("X", db1) ∧
      (resolveShortCode 1 "X" db1).1 = .ok (jsTrim "https://example.com") ∧
      findByCode (resolveShortCode 1 "X" db1).2 "X" =
        some ⟨"X", jsTrim "https://example.com", 1, 0, none⟩ :=
  create_then_resolve_roundtrip [] "https://example.com" "X" 0 1 rfl rfl

/-- C5: when a record for the trimmed URL already exists, createShortUrl
returns that record's short code and returns the table unchanged, whatever
`expiresAt` argument is supplied — first-writer-wins. -/
theorem create_existing_first_writer_wins (db : List UrlRecord)
    (u gen : String) (now : Int) (exp : JsArg) (r : UrlRecord)
    (hfound : findByUrl db (jsTrim u) = some r) :
    createShortUrl gen now u exp db = .ok (r.short_code, db) := by
  simp [createShortUrl, hfound]

/-- C5 witness: re-creating the URL of `dbT` with a different expiration
argument returns the stored code `c1` and leaves the table unchanged. -/
theorem create_existing_first_writer_wins_witness :
    createShortUrl "Z9" 99 "https://example.com" (JsArg.timeStr 123) dbT =
      .ok ("c1", dbT) :=
  create_existing_first_writer_wins dbT "https://example.com" "Z9" 99
    (JsArg.timeStr 123) ⟨"c1", "https://example.com", 0, 0, some 5⟩ rfl

/-- C6: resolving or requesting stats for a code with no record fails with
NotFound (and leaves the table unchanged), while for any existing code the
stats query returns the full stored record — regardless of expiration, never
NotFound or Expired. -/
theorem notfound_and_stats_semantics (db : List UrlRecord) (code : String)
    (now : Int) :
    (findByCode db code = none →
      resolveShortCode now code db = (.error .notFound, db) ∧
      getUrlStats code db = .error .notFound) ∧
    (∀ r : UrlRecord, findByCode db code = some r →
      getUrlStats code db = .ok r) := by
  constructor
  · intro h
    exact ⟨by simp [resolveShortCode, getUrlByShortCode, h],
           by simp [getUrlStats, h]⟩
  · intro r h
    simp [getUrlStats, h]

/-- C6 witness: the unknown code `zz` fails with NotFound for both resolve and
stats, while stats for the expired record `c1` still returns the full row. -/
theorem notfound_and_stats_semantics_witness :
    (resolveShortCode 999 "zz" dbT = (.error .notFound, dbT) ∧
      getUrlStats "zz" dbT = .error .notFound) ∧
    getUrlStats "c1" dbT =
      .ok ⟨"c1", "https://example.com", 0, 0, some 5⟩ :=
  ⟨(notfound_and_stats_semantics dbT "zz" 999).1 rfl,
   (notfound_and_stats_semantics dbT "c1" 999).2
     ⟨"c1", "https://example.com", 0, 0, some 5⟩ rfl⟩

/-- C7: when no record exists for the trimmed URL and the generated code is
fresh, createShortUrl persists a new record with click count 0, creation time
`now`, the supplied expiration (null when the argument is absent, the supplied
instant when a timestamp string is passed), and the generated short code, and
returns that code. -/
theorem new_record_initialization (db : List UrlRecord) (u gen : String)
    (now : Int)
    (hnew : findByUrl db (jsTrim u) = none)
    (hg : usedCode db gen = false) :
    createShortUrl gen now u JsArg.null db =
      .ok (gen, db ++ [⟨gen, jsTrim u, 0, now, none⟩]) ∧
    ∀ t : Int, createShortUrl gen now u (JsArg.timeStr t) db =
      .ok (gen, db ++ [⟨gen, jsTrim u, 0, now, some t⟩]) := by
  constructor
  · simp [createShortUrl, hnew, insertUrlRow, hg, storedExpiry, JsArg.truthy]
  · intro t
    simp [createShortUrl, hnew, insertUrlRow, hg, storedExpiry,
      JsArg.truthy, JsArg.dateValue]

/-- C7 witness: fresh creation of a whitespace-padded URL, without and with a
supplied expiration instant. -/
theorem new_record_initialization_witness :
    createShortUrl "N1" 42 " https://new.example " JsArg.null [] =
      .ok ("N1", [⟨"N1", "https://new.example", 0, 42, none⟩]) ∧
    createShortUrl "N1" 42 " https://new.example " (JsArg.timeStr 1000) [] =
      .ok ("N1", [⟨"N1", "https://new.example", 0, 42, some 1000⟩]) :=
  ⟨(new_record_initialization [] " https://new.example " "N1" 42 rfl rfl).1,
   (new_record_initialization [] " https://new.example " "N1" 42 rfl rfl).2
     1000⟩

/-- C8 counterexample: in `dbA` the code `abc` is taken; a create whose single
generated code collides returns the store error to the caller — there is no
regenerate-and-retry, contradicting the claim that the violation is not
propagated. -/
theorem collision_insert_propagates_cex :
    createShortUrl "abc" 1 "https://b.example" JsArg.null dbA =
      .error .storeError := rfl

/-- C8 (amended): when the generated short code collides with an existing
record, createShortUrl surfaces the store error to the caller immediately; the
single `shortid.generate()` call is never retried. -/
theorem collision_insert_propagates_error (db : List UrlRecord)
    (u gen : String) (now : Int) (exp : JsArg)
    (hnew : findByUrl db (jsTrim u) = none)
    (hused : usedCode db gen = true) :
    createShortUrl gen now u exp db = .error .storeError := by
  simp [createShortUrl, hnew, insertUrlRow, hused]

/-- C8 witness: the colliding create applied to `dbA` with a truthy
expiration argument. -/
theorem collision_insert_propagates_error_witness :
    createShortUrl "abc" 2 "https://c.example" (JsArg.timeStr 7) dbA =
      .error .storeError :=
  collision_insert_propagates_error dbA "https://c.example" "abc" 2
    (JsArg.timeStr 7) rfl rfl

/-- C9 counterexample: two concurrent creations of `https://example.com` from
the empty table, both of whose existence checks run before either insert: both
inserts succeed (the schema has no uniqueness constraint on `original_url`),
the callers receive the distinct codes `a1` and `b2`, and two records for the
URL remain. -/
theorem duplicate_race_two_records_cex :
    raceCreate "a1" "b2" 0 0 "https://example.com" "https://example.com"
        JsArg.null JsArg.null [] =
      (.ok "a1", .ok "b2",
        [⟨"a1", "https://example.com", 0, 0, none⟩,
         ⟨"b2", "https://example.com", 0, 0, none⟩]) ∧
    countUrl [⟨"a1", "https://example.com", 0, 0, none⟩,
        ⟨"b2", "https://example.com", 0, 0, none⟩] "https://example.com" = 2 ∧
    ("a1" : String) ≠ "b2" :=
  ⟨rfl, rfl, by decide⟩

/-- C9 (amended): in the interleaving where both existence checks precede both
inserts, two concurrent createShortUrl calls for the same URL both insert
successfully and return their own distinct generated codes, leaving two
records for the URL — there is no conflict detection or re-read. -/
theorem duplicate_race_both_insert (db : List UrlRecord)
    (u gen1 gen2 : String) (now1 now2 : Int) (exp1 exp2 : JsArg)
    (hnew : findByUrl db (jsTrim u) = none)
    (hg1 : usedCode db gen1 = false) (hg2 : usedCode db gen2 = false)
    (hne : gen1 ≠ gen2) :
    raceCreate gen1 gen2 now1 now2 u u exp1 exp2 db =
      (.ok gen1, .ok gen2,
        (db ++ [⟨gen1, jsTrim u, 0, now1, storedExpiry exp1⟩]) ++
          [⟨gen2, jsTrim u, 0, now2, storedExpiry exp2⟩]) ∧
    countUrl ((db ++ [⟨gen1, jsTrim u, 0, now1, storedExpiry exp1⟩]) ++
        [⟨gen2, jsTrim u, 0, now2, storedExpiry exp2⟩]) (jsTrim u) = 2 := by
  have hchk : createCheck db u = none := by
    simp [createCheck, hnew]
  have hg2' : usedCode
      (db ++ [⟨gen1, jsTrim u, 0, now1, storedExpiry exp1⟩]) gen2 = false := by
    rw [usedCode_append]
    simp [usedCode, hg2, hne]
  constructor
  · simp [raceCreate, hchk, createAfterCheck, insertUrlRow, hg1, hg2']
  · rw [countUrl_append, countUrl_append,
      countUrl_eq_zero_of_findByUrl_eq_none hnew]
    simp [countUrl]

/-- C9 witness: the race applied to the empty table with generated codes `g1`
and `g2`. -/
theorem duplicate_race_both_insert_witness :
    raceCreate "g1" "g2" 3 4 "https://example.com" "https://example.com"
        JsArg.null JsArg.null [] =
      (.ok "g1", .ok "g2",
        (([] : List UrlRecord) ++
            [⟨"g1", jsTrim "https://example.com", 0, 3,
              storedExpiry JsArg.null⟩]) ++
          [⟨"g2", jsTrim "https://example.com", 0, 4,
            storedExpiry JsArg.null⟩]) ∧
    countUrl ((([] : List UrlRecord) ++
        [⟨"g1", jsTrim "https://example.com", 0, 3,
          storedExpiry JsArg.null⟩]) ++
        [⟨"g2", jsTrim "https://example.com", 0, 4,
          storedExpiry JsArg.null⟩]) (jsTrim "https://example.com") = 2 :=
  duplicate_race_both_insert [] "https://example.com" "g1" "g2" 3 4
    JsArg.null JsArg.null rfl rfl rfl (by decide)

/-- C10: a falsy `expiresAt` argument (empty string, the number 0, false — and
likewise the absent default null) is stored as a NULL expiration, so the
resulting record never expires: resolution by its code succeeds at every
instant. -/
theorem falsy_expiry_stored_null (db : List UrlRecord) (u gen : String)
    (now : Int) (exp : JsArg)
    (hnew : findByUrl db (jsTrim u) = none)
    (hg : usedCode db gen = false)
    (hfalsy : exp.truthy = false) :
    createShortUrl gen now u exp db =
      .ok (gen, db ++ [⟨gen, jsTrim u, 0, now, none⟩]) ∧
    ∀ now2 : Int,
      getUrlByShortCode now2 gen (db ++ [⟨gen, jsTrim u, 0, now, none⟩]) =
        .ok ⟨gen, jsTrim u, 0, now, none⟩ := by
  have hstore : storedExpiry exp = none := by
    simp [storedExpiry, hfalsy]
  have hrow : findByCode (db ++ [⟨gen, jsTrim u, 0, now, none⟩]) gen =
      some ⟨gen, jsTrim u, 0, now, none⟩ := by
    rw [findByCode_append_of_none (findByCode_eq_none_of_usedCode_eq_false hg)]
    simp [findByCode]
  constructor
  · simp [createShortUrl, hnew, insertUrlRow, hg, hstore]
  · intro now2
    simp [getUrlByShortCode, hrow]

/-- C10 witness: creating with the empty-string expiration argument stores a
NULL expiration and the record still resolves at the large instant 999999. -/
theorem falsy_expiry_stored_null_witness :
    createShortUrl "F1" 5 "https://f.example" JsArg.emptyStr [] =
      .ok ("F1", [⟨"F1", "https://f.example", 0, 5, none⟩]) ∧
    getUrlByShortCode 999999 "F1" [⟨"F1", "https://f.example", 0, 5, none⟩] =
      .ok ⟨"F1", "https://f.example", 0, 5, none⟩ :=
  ⟨(falsy_expiry_stored_null [] "https://f.example" "F1" 5 JsArg.emptyStr
      rfl rfl rfl).1,
   (falsy_expiry_stored_null [] "https://f.example" "F1" 5 JsArg.emptyStr
      rfl rfl rfl).2 999999⟩

end ShortUrl
